import Mathlib

/-!
Shallow embedding of the incident-decision pipeline
(`src/agents/*.py`, `src/graph/decision_graph.py`, `src/config/settings.py`,
`src/state/state.py`) and proofs of the specification claims about it.

Python floats are modelled as rationals; Python `None` as `Option.none`;
exceptions raised by external dependencies (the Gemini classification call,
the Oracle similarity query together with embedding generation) are modelled
by `Except` parameters supplied to the agent functions, and an uncaught
exception escaping an agent is modelled by the agent returning
`Except.error` / `Option.none`.
-/

namespace AgenticObs

/-! ## Data model, configuration and component functions (from the source) -/

/-- `evidence_status` literal from `src/state/state.py`:
`Literal["FOUND", "NOT_FOUND", "ERROR"]`. -/
inductive EvidenceStatus where
  | FOUND
  | NOT_FOUND
  | ERROR
  deriving DecidableEq

/-- `OracleEvidence` TypedDict from `src/state/state.py`. -/
structure OracleEvidence where
  incident_count : Nat
  success_rate : ℚ
  common_resolution : Option String
  similarity_score : ℚ
  deriving DecidableEq

/-- The dict written by `knowledge_agent` into `state["knowledge_signal"]`. -/
structure KnowledgeSignal where
  known_cause : String
  suggested_fix : String
  confidence_hint : ℚ
  deriving DecidableEq

/-- The classification dict produced by `incident_understanding_agent`
(keys `incident_type`, `affected_area`, `context`); each key may be
missing or `None`, which both map to `Option.none`. -/
structure Signature where
  incident_type : Option String
  affected_area : Option String
  context : Option String
  deriving DecidableEq

/-- `IncidentState` TypedDict from `src/state/state.py`, together with the
`knowledge_signal` key written by `knowledge_agent`. -/
structure IncidentState where
  user_description : Option String
  incident_signature : Option Signature
  oracle_evidence : Option OracleEvidence
  evidence_status : EvidenceStatus
  confidence : Option ℚ
  requires_human : Option Bool
  final_decision : Option String
  response_message : Option String
  knowledge_signal : Option KnowledgeSignal
  deriving DecidableEq

def CONFIDENCE_THRESHOLD : ℚ := 75 / 100

def SIMILARITY_WEIGHT : ℚ := 6 / 10

def SUCCESS_WEIGHT : ℚ := 4 / 10

def NO_EVIDENCE_CONFIDENCE : ℚ := 3 / 10

def ERROR_CONFIDENCE : ℚ := 0

def MAX_VECTOR_DISTANCE : ℚ := 6 / 10

def INCIDENT_TYPES : List String :=
  ["service_outage", "service_degradation", "configuration_error",
   "deployment_issue", "unknown_but_classified"]

def AFFECTED_AREAS : List String :=
  ["payments", "login", "orders", "delivery", "general"]

/-- Python `round(x, 2)`: round to two decimal places (half rounded up in
this model; all values this development evaluates at are not ties, where
the two conventions agree). -/
def round2 (x : ℚ) : ℚ := (⌊x * 100 + 1 / 2⌋ : ℚ) / 100

/-- Python f-string interpolation of an `Optional[str]`: `None` prints as
the string `"None"`. -/
def pyStr : Option String → String
  | some s => s
  | none => "None"

/-- The ASCII whitespace characters removed by Python `str.strip()`. -/
def pyIsSpace (c : Char) : Bool :=
  c = ' ' || c = '\t' || c = '\n' || c = '\r' || c = '\x0b' || c = '\x0c'

/-- Python `str.strip()`: drop leading and trailing whitespace. -/
def pyStrip (s : String) : String :=
  String.mk (((s.data.dropWhile pyIsSpace).reverse.dropWhile pyIsSpace).reverse)

/-- Python `str.lower()` on one character (ASCII range, which is all the
comparison in the human gate depends on). -/
def pyLowerChar (c : Char) : Char :=
  if 'A' ≤ c && c ≤ 'Z' then Char.ofNat (c.toNat + 32) else c

/-- Python `str.lower()`. -/
def pyLower (s : String) : String := String.mk (s.data.map pyLowerChar)

/-- Decision Engine: `orchestrator` from `src/agents/orchestrator.py`.
The `FOUND` branch reads `state["oracle_evidence"]["similarity_score"]`;
when `oracle_evidence` is `None` that subscript raises, so the function
returns `Option.none` there (an uncaught `TypeError`). -/
def orchestrator (state : IncidentState) : Option IncidentState :=
  if state.evidence_status = EvidenceStatus.ERROR then
    some { state with
      confidence := some ERROR_CONFIDENCE
      requires_human := some true
      final_decision := some "SYSTEM_ESCALATION"
      response_message :=
        some "Your issue has been escalated for manual review due to system constraints." }
  else if state.evidence_status = EvidenceStatus.NOT_FOUND then
    some { state with
      confidence := some NO_EVIDENCE_CONFIDENCE
      requires_human := some true
      final_decision := some "REQUIRES_REVIEW"
      response_message :=
        some "Your issue requires additional review by our engineering team." }
  else
    match state.oracle_evidence with
    | none => none
    | some evidence =>
      let confidence : ℚ :=
        round2 (SIMILARITY_WEIGHT * evidence.similarity_score
                + SUCCESS_WEIGHT * evidence.success_rate)
      let requiresHuman : Bool := confidence < CONFIDENCE_THRESHOLD
      let state1 := { state with
        confidence := some confidence
        requires_human := some requiresHuman }
      if requiresHuman then
        some state1
      else
        some { state1 with
          final_decision := some "AUTO_RESOLUTION"
          response_message :=
            some ("We identified a known issue and applied a proven resolution: "
                  ++ pyStr evidence.common_resolution ++ ".") }

/-- The aggregate row produced by the single-pass Oracle query in
`src/agents/oracle_evidence_agent.py` (`COUNT`, `AVG(success)`, best action
by minimal distance with id tie-break, `MIN(VECTOR_DISTANCE)`). `fetchone`
may also yield no row at all, which is the `Option.none` case of the `db`
argument of the agent. -/
structure OracleRow where
  total_matches : Nat
  success_ratio : Option ℚ
  best_action : Option String
  best_distance : ℚ
  deriving DecidableEq

/-- `oracle_evidence_agent`. The `db` argument models everything inside the
try block that talks to external dependencies: `Except.error ()` is any
exception raised while generating the embedding, connecting to Oracle or
executing the similarity query (all are caught by the agent and downgraded
to `ERROR`); `Except.ok row` is a completed query. The empty-description
guard runs before any external call, exactly as in the source. -/
def oracle_evidence_agent (state : IncidentState)
    (db : Except Unit (Option OracleRow)) : IncidentState :=
  match state.user_description with
  | none =>
      { state with oracle_evidence := none, evidence_status := EvidenceStatus.NOT_FOUND }
  | some issue_text =>
    if issue_text = "" then
      { state with oracle_evidence := none, evidence_status := EvidenceStatus.NOT_FOUND }
    else
      match db with
      | Except.error _ =>
          { state with oracle_evidence := none, evidence_status := EvidenceStatus.ERROR }
      | Except.ok none =>
          { state with oracle_evidence := none, evidence_status := EvidenceStatus.NOT_FOUND }
      | Except.ok (some row) =>
        if row.total_matches = 0 then
          { state with oracle_evidence := none, evidence_status := EvidenceStatus.NOT_FOUND }
        else if MAX_VECTOR_DISTANCE < row.best_distance then
          { state with oracle_evidence := none, evidence_status := EvidenceStatus.NOT_FOUND }
        else
          let similarity_score : ℚ := max 0 (1 - row.best_distance)
          { state with
            oracle_evidence := some {
              incident_count := row.total_matches
              success_rate := row.success_ratio.getD 0
              common_resolution := row.best_action
              similarity_score := round2 similarity_score }
            evidence_status := EvidenceStatus.FOUND }

/-- The controlled fallback dict substituted when `json.loads` raises. -/
def fallbackSignature : Signature :=
  { incident_type := some "unknown_but_classified"
    affected_area := some "general"
    context := some "unspecified" }

/-- Python truthiness of `parsed.get("context")`: `None` and the empty
string are falsy. -/
def pyTruthyStr : Option String → Bool
  | some s => !(s = "")
  | none => false

/-- Membership test `parsed.get("incident_type") in INCIDENT_TYPES`
(`None` is not a member of the list of strings). -/
def inIncidentTypes : Option String → Bool
  | some t => INCIDENT_TYPES.contains t
  | none => false

/-- Membership test `parsed.get("affected_area") in AFFECTED_AREAS`. -/
def inAffectedAreas : Option String → Bool
  | some a => AFFECTED_AREAS.contains a
  | none => false

/-- The normalization block of `incident_understanding_agent` (the three
coercions run unconditionally after parsing). -/
def normalizeSignature (parsed : Signature) : Signature :=
  let p1 := if inIncidentTypes parsed.incident_type then parsed
            else { parsed with incident_type := some "unknown_but_classified" }
  let p2 := if inAffectedAreas p1.affected_area then p1
            else { p1 with affected_area := some "general" }
  if pyTruthyStr p2.context then p2
  else { p2 with context := some "unspecified" }

/-- `incident_understanding_agent`. `llmCall` models `llm.invoke` together
with the extraction of its text content: `Except.error ()` is an exception
raised by the call — which stands OUTSIDE the try block in the source, so
it propagates out of the agent (`Except.error` result). `parse` models
`json.loads` applied to the stripped response text: `Option.none` is a
parse failure, which IS caught and replaced by the fallback signature. -/
def incident_understanding_agent (state : IncidentState)
    (llmCall : Except Unit String) (parse : String → Option Signature) :
    Except Unit IncidentState :=
  match llmCall with
  | Except.error e => Except.error e
  | Except.ok response_text =>
    let parsed := match parse (pyStrip response_text) with
      | some p => p
      | none => fallbackSignature
    Except.ok { state with incident_signature := some (normalizeSignature parsed) }

/-- `knowledge_agent`. Reading `state["incident_signature"]` and calling
`.get` on it raises when the signature is absent; the `llm.invoke` call is
not guarded by any try block, so its exception propagates. -/
def knowledge_agent (state : IncidentState) (llmCall : Except Unit String) :
    Except Unit IncidentState :=
  match state.incident_signature with
  | none => Except.error ()
  | some _ =>
    match llmCall with
    | Except.error e => Except.error e
    | Except.ok response_text =>
      Except.ok { state with
        knowledge_signal := some {
          known_cause := response_text
          suggested_fix := response_text
          confidence_hint := 5 / 10 } }

def human_approval (state : IncidentState) (reviewerInput : String) : IncidentState :=
  let decision := pyLower (pyStrip reviewerInput)
  if decision = "yes" then
    { state with
      final_decision := some "HUMAN_APPROVED"
      response_message :=
        some "Your issue has been reviewed and an appropriate action has been taken." }
  else
    { state with
      final_decision := some "HUMAN_REJECTED"
      response_message :=
        some "Your issue has been reviewed and escalated for further investigation." }

/-- Nodes of the decision graph, plus the `END` sentinel. -/
inductive Node where
  | interpreter
  | oracle_evidence
  | knowledge
  | orchestratorNode
  | human_approvalNode
  | endNode
  deriving DecidableEq

/-- The unconditional edges registered by `build_decision_graph` in
`src/graph/decision_graph.py` (`add_edge` calls), including the terminal
edge out of the human gate. -/
def staticEdges : List (Node × Node) :=
  [(Node.interpreter, Node.oracle_evidence),
   (Node.oracle_evidence, Node.knowledge),
   (Node.knowledge, Node.orchestratorNode),
   (Node.human_approvalNode, Node.endNode)]

/-- The conditional edge out of the orchestrator:
`lambda state: "human_approval" if state["requires_human"] else END`
(Python truthiness: `None` and `False` route to `END`). -/
def routeAfterOrchestrator (state : IncidentState) : Node :=
  match state.requires_human with
  | some true => Node.human_approvalNode
  | _ => Node.endNode

/-- Final pipeline state plus whether the human gate ran. -/
structure PipelineResult where
  finalState : IncidentState
  visitedGate : Bool
  deriving DecidableEq

/-- One execution of the compiled graph:
interpreter → oracle_evidence → knowledge → orchestrator →
(human_approval | END). `Option.none` is a run aborted by an uncaught
exception in one of the nodes. External outcomes (the two Gemini calls,
the Oracle query, the reviewer's console input) are parameters. -/
def runPipeline (state0 : IncidentState)
    (classifierCall : Except Unit String) (parse : String → Option Signature)
    (knowledgeCall : Except Unit String)
    (db : Except Unit (Option OracleRow))
    (reviewerInput : String) : Option PipelineResult :=
  match incident_understanding_agent state0 classifierCall parse with
  | Except.error _ => none
  | Except.ok s1 =>
    let s2 := oracle_evidence_agent s1 db
    match knowledge_agent s2 knowledgeCall with
    | Except.error _ => none
    | Except.ok s3 =>
      match orchestrator s3 with
      | none => none
      | some s4 =>
        if routeAfterOrchestrator s4 = Node.human_approvalNode then
          some { finalState := human_approval s4 reviewerInput, visitedGate := true }
        else
          some { finalState := s4, visitedGate := false }

/-- Scenario B evidence: similarity 0.9, success rate 0.8. -/
def evidenceB : OracleEvidence :=
  { incident_count := 12
    success_rate := 8 / 10
    common_resolution := some "Restart the payment gateway pods"
    similarity_score := 9 / 10 }

/-- A post-retrieval state carrying scenario B evidence. -/
def stateB : IncidentState :=
  { user_description := some "payments are failing"
    incident_signature := none
    oracle_evidence := some evidenceB
    evidence_status := EvidenceStatus.FOUND
    confidence := none
    requires_human := none
    final_decision := none
    response_message := none
    knowledge_signal := none }

/-- What the orchestrator produces on `stateB`. -/
def stateB_out : IncidentState :=
  { stateB with
    confidence := some (86 / 100)
    requires_human := some false
    final_decision := some "AUTO_RESOLUTION"
    response_message :=
      some "We identified a known issue and applied a proven resolution: Restart the payment gateway pods." }

/-- A state whose evidence retrieval errored out. -/
def stateErr : IncidentState :=
  { user_description := some "checkout is down"
    incident_signature := some fallbackSignature
    oracle_evidence := none
    evidence_status := EvidenceStatus.ERROR
    confidence := none
    requires_human := none
    final_decision := none
    response_message := none
    knowledge_signal := none }

/-- A state whose evidence retrieval found nothing. -/
def stateNF : IncidentState :=
  { user_description := some "orders page renders twice"
    incident_signature := some fallbackSignature
    oracle_evidence := none
    evidence_status := EvidenceStatus.NOT_FOUND
    confidence := none
    requires_human := none
    final_decision := none
    response_message := none
    knowledge_signal := none }

/-- A `json.loads` outcome that always fails (malformed model output). -/
def parseFail : String → Option Signature := fun _ => none

/-- Fresh state entering the pipeline for the error-path run
(`main.py` leaves `evidence_status` unset before the retriever writes it;
the placeholder value below is overwritten before anything reads it). -/
def pipeInit : IncidentState :=
  { user_description := some "checkout is down"
    incident_signature := none
    oracle_evidence := none
    evidence_status := EvidenceStatus.NOT_FOUND
    confidence := none
    requires_human := none
    final_decision := none
    response_message := none
    knowledge_signal := none }

/-- The Classifier's output in the error-path run (fallback signature). -/
def stage1Err : IncidentState :=
  { pipeInit with incident_signature := some fallbackSignature }

/-- The state reaching the Decision Engine in the error-path run. -/
def stage3Err : IncidentState :=
  { stage1Err with
    oracle_evidence := none
    evidence_status := EvidenceStatus.ERROR
    knowledge_signal := some
      { known_cause := "hint", suggested_fix := "hint", confidence_hint := 5 / 10 } }

/-- The Decision Engine's output in the error-path run. -/
def stage4Err : IncidentState :=
  { stage3Err with
    confidence := some ERROR_CONFIDENCE
    requires_human := some true
    final_decision := some "SYSTEM_ESCALATION"
    response_message :=
      some "Your issue has been escalated for manual review due to system constraints." }

/-- The final state of the error-path run after the Human Gate rejects. -/
def finalErrState : IncidentState :=
  { stage4Err with
    final_decision := some "HUMAN_REJECTED"
    response_message :=
      some "Your issue has been reviewed and escalated for further investigation." }

/-- Aggregate row whose best distance sits exactly on the configured
maximum. -/
def rowBoundary : OracleRow :=
  { total_matches := 4
    success_ratio := some (3 / 4)
    best_action := some "clear the CDN cache"
    best_distance := 6 / 10 }

/-- Aggregate row with a perfect (zero-distance) match. -/
def rowZero : OracleRow :=
  { total_matches := 1
    success_ratio := some 1
    best_action := some "restart the login service"
    best_distance := 0 }

/-! ## Shared helper lemmas and claim theorems -/

/-- Evaluation rule for `round2` at concrete rationals. -/
theorem round2_eval (m : ℤ) {x : ℚ} (h1 : (m : ℚ) ≤ x * 100 + 1 / 2)
    (h2 : x * 100 + 1 / 2 < m + 1) : round2 x = (m : ℚ) / 100 := by
  unfold round2
  rw [show ⌊x * 100 + 1 / 2⌋ = m from (Int.floor_eq_iff).mpr ⟨h1, h2⟩]

/-- ERROR branch of the orchestrator. -/
theorem orchestrator_error_branch (st : IncidentState)
    (hs : st.evidence_status = EvidenceStatus.ERROR) :
    orchestrator st = some { st with
      confidence := some ERROR_CONFIDENCE
      requires_human := some true
      final_decision := some "SYSTEM_ESCALATION"
      response_message :=
        some "Your issue has been escalated for manual review due to system constraints." } := by
  unfold orchestrator
  rw [hs]
  simp

/-- NOT_FOUND branch of the orchestrator. -/
theorem orchestrator_notfound_branch (st : IncidentState)
    (hs : st.evidence_status = EvidenceStatus.NOT_FOUND) :
    orchestrator st = some { st with
      confidence := some NO_EVIDENCE_CONFIDENCE
      requires_human := some true
      final_decision := some "REQUIRES_REVIEW"
      response_message :=
        some "Your issue requires additional review by our engineering team." } := by
  unfold orchestrator
  rw [hs]
  simp

/-- FOUND branch of the orchestrator, confidence below threshold. -/
theorem orchestrator_found_low (st : IncidentState) (ev : OracleEvidence)
    (hs : st.evidence_status = EvidenceStatus.FOUND)
    (he : st.oracle_evidence = some ev)
    (hlt : round2 (SIMILARITY_WEIGHT * ev.similarity_score + SUCCESS_WEIGHT * ev.success_rate)
           < CONFIDENCE_THRESHOLD) :
    orchestrator st = some { st with
      confidence := some (round2 (SIMILARITY_WEIGHT * ev.similarity_score
                                  + SUCCESS_WEIGHT * ev.success_rate))
      requires_human := some true } := by
  unfold orchestrator
  rw [hs, he]
  simp [hlt]

/-- FOUND branch of the orchestrator, confidence at or above threshold. -/
theorem orchestrator_found_high (st : IncidentState) (ev : OracleEvidence)
    (hs : st.evidence_status = EvidenceStatus.FOUND)
    (he : st.oracle_evidence = some ev)
    (hge : CONFIDENCE_THRESHOLD ≤ round2 (SIMILARITY_WEIGHT * ev.similarity_score
                                          + SUCCESS_WEIGHT * ev.success_rate)) :
    orchestrator st = some { st with
      confidence := some (round2 (SIMILARITY_WEIGHT * ev.similarity_score
                                  + SUCCESS_WEIGHT * ev.success_rate))
      requires_human := some false
      final_decision := some "AUTO_RESOLUTION"
      response_message :=
        some ("We identified a known issue and applied a proven resolution: "
              ++ pyStr ev.common_resolution ++ ".") } := by
  unfold orchestrator
  rw [hs, he]
  simp [not_lt.mpr hge]

/-- FOUND with missing evidence: the subscript raises. -/
theorem orchestrator_found_none (st : IncidentState)
    (hs : st.evidence_status = EvidenceStatus.FOUND)
    (he : st.oracle_evidence = none) : orchestrator st = none := by
  unfold orchestrator
  rw [hs, he]
  simp

/-- Exhaustive case analysis of a successful orchestrator run. -/
theorem orchestrator_inversion (st st1 : IncidentState) (h : orchestrator st = some st1) :
    (st.evidence_status = EvidenceStatus.ERROR ∧ st1 = { st with
      confidence := some ERROR_CONFIDENCE
      requires_human := some true
      final_decision := some "SYSTEM_ESCALATION"
      response_message :=
        some "Your issue has been escalated for manual review due to system constraints." }) ∨
    (st.evidence_status = EvidenceStatus.NOT_FOUND ∧ st1 = { st with
      confidence := some NO_EVIDENCE_CONFIDENCE
      requires_human := some true
      final_decision := some "REQUIRES_REVIEW"
      response_message :=
        some "Your issue requires additional review by our engineering team." }) ∨
    (∃ ev, st.evidence_status = EvidenceStatus.FOUND ∧ st.oracle_evidence = some ev ∧
      ((round2 (SIMILARITY_WEIGHT * ev.similarity_score + SUCCESS_WEIGHT * ev.success_rate)
          < CONFIDENCE_THRESHOLD ∧
        st1 = { st with
          confidence := some (round2 (SIMILARITY_WEIGHT * ev.similarity_score
                                      + SUCCESS_WEIGHT * ev.success_rate))
          requires_human := some true }) ∨
       (CONFIDENCE_THRESHOLD ≤
          round2 (SIMILARITY_WEIGHT * ev.similarity_score + SUCCESS_WEIGHT * ev.success_rate) ∧
        st1 = { st with
          confidence := some (round2 (SIMILARITY_WEIGHT * ev.similarity_score
                                      + SUCCESS_WEIGHT * ev.success_rate))
          requires_human := some false
          final_decision := some "AUTO_RESOLUTION"
          response_message :=
            some ("We identified a known issue and applied a proven resolution: "
                  ++ pyStr ev.common_resolution ++ ".") }))) := by
  cases hs : st.evidence_status with
  | ERROR =>
    left
    refine ⟨rfl, ?_⟩
    rw [orchestrator_error_branch st hs, hs] at h
    exact (Option.some_inj.mp h).symm
  | NOT_FOUND =>
    right; left
    refine ⟨rfl, ?_⟩
    rw [orchestrator_notfound_branch st hs, hs] at h
    exact (Option.some_inj.mp h).symm
  | FOUND =>
    right; right
    cases he : st.oracle_evidence with
    | none =>
      rw [orchestrator_found_none st hs he] at h
      exact absurd h (by simp)
    | some ev =>
      refine ⟨ev, rfl, rfl, ?_⟩
      by_cases hlt : round2 (SIMILARITY_WEIGHT * ev.similarity_score
          + SUCCESS_WEIGHT * ev.success_rate) < CONFIDENCE_THRESHOLD
      · left
        refine ⟨hlt, ?_⟩
        rw [orchestrator_found_low st ev hs he hlt, hs, he] at h
        exact (Option.some_inj.mp h).symm
      · right
        refine ⟨not_lt.mp hlt, ?_⟩
        rw [orchestrator_found_high st ev hs he (not_lt.mp hlt), hs, he] at h
        exact (Option.some_inj.mp h).symm

theorem oracle_c7 (st : IncidentState) (db : Except Unit (Option OracleRow)) :
    (oracle_evidence_agent st db).evidence_status = EvidenceStatus.FOUND ↔
    ((oracle_evidence_agent st db).oracle_evidence).isSome = true := by
  unfold oracle_evidence_agent
  cases st.user_description with
  | none => simp
  | some d =>
    by_cases hd : d = ""
    · simp [hd]
    · cases db with
      | error e => simp [hd]
      | ok r =>
        cases r with
        | none => simp [hd]
        | some row =>
          by_cases hc : row.total_matches = 0
          · simp [hd, hc]
          · by_cases hdist : MAX_VECTOR_DISTANCE < row.best_distance
            · simp [hd, hc, hdist]
            · simp [hd, hc, hdist]

theorem oracle_found_branch (st : IncidentState) (d : String) (row : OracleRow)
    (hdesc : st.user_description = some d) (hne : d ≠ "")
    (hc : row.total_matches ≠ 0)
    (hdist : ¬ (MAX_VECTOR_DISTANCE < row.best_distance)) :
    oracle_evidence_agent st (Except.ok (some row)) = { st with
      oracle_evidence := some {
        incident_count := row.total_matches
        success_rate := row.success_ratio.getD 0
        common_resolution := row.best_action
        similarity_score := round2 (max 0 (1 - row.best_distance)) }
      evidence_status := EvidenceStatus.FOUND } := by
  unfold oracle_evidence_agent
  rw [hdesc]
  simp [hne, hc, hdist]

theorem oracle_reject_branch (st : IncidentState) (d : String) (row : OracleRow)
    (hdesc : st.user_description = some d) (hne : d ≠ "")
    (hc : row.total_matches ≠ 0)
    (hdist : MAX_VECTOR_DISTANCE < row.best_distance) :
    oracle_evidence_agent st (Except.ok (some row)) = { st with
      oracle_evidence := none
      evidence_status := EvidenceStatus.NOT_FOUND } := by
  unfold oracle_evidence_agent
  rw [hdesc]
  simp [hne, hc, hdist]

theorem oracle_error_branch (st : IncidentState) (d : String)
    (hdesc : st.user_description = some d) (hne : d ≠ "") :
    oracle_evidence_agent st (Except.error ()) = { st with
      oracle_evidence := none
      evidence_status := EvidenceStatus.ERROR } := by
  unfold oracle_evidence_agent
  rw [hdesc]
  simp [hne]

/-- The conditional edge routes to the human gate exactly on `requires_human == True`. -/
theorem route_iff (st : IncidentState) :
    routeAfterOrchestrator st = Node.human_approvalNode ↔ st.requires_human = some true := by
  unfold routeAfterOrchestrator
  cases h : st.requires_human with
  | none => simp
  | some b => cases b <;> simp

/-- The human gate leaves `requires_human` untouched. -/
theorem human_approval_keeps_requires_human (st : IncidentState) (inp : String) :
    (human_approval st inp).requires_human = st.requires_human := by
  unfold human_approval
  by_cases h : pyLower (pyStrip inp) = "yes" <;> simp [h]

/-- The human gate writes one of its two verdicts. -/
theorem human_approval_verdicts (st : IncidentState) (inp : String) :
    (human_approval st inp).final_decision = some "HUMAN_APPROVED" ∨
    (human_approval st inp).final_decision = some "HUMAN_REJECTED" := by
  unfold human_approval
  by_cases h : pyLower (pyStrip inp) = "yes" <;> simp [h]

/-- Decomposition of a completed pipeline run into its stages. -/
theorem runPipeline_inversion (st0 : IncidentState) (cc : Except Unit String)
    (parse : String → Option Signature) (kc : Except Unit String)
    (db : Except Unit (Option OracleRow)) (inp : String) (res : PipelineResult)
    (h : runPipeline st0 cc parse kc db inp = some res) :
    ∃ s1 s3 s4, incident_understanding_agent st0 cc parse = Except.ok s1 ∧
      knowledge_agent (oracle_evidence_agent s1 db) kc = Except.ok s3 ∧
      orchestrator s3 = some s4 ∧
      ((s4.requires_human = some true ∧
        res = { finalState := human_approval s4 inp, visitedGate := true }) ∨
       (s4.requires_human ≠ some true ∧
        res = { finalState := s4, visitedGate := false })) := by
  unfold runPipeline at h
  cases hi : incident_understanding_agent st0 cc parse with
  | error e => rw [hi] at h; simp at h
  | ok s1 =>
    rw [hi] at h
    dsimp only at h
    cases hk : knowledge_agent (oracle_evidence_agent s1 db) kc with
    | error e => rw [hk] at h; simp at h
    | ok s3 =>
      rw [hk] at h
      dsimp only at h
      cases ho : orchestrator s3 with
      | none => rw [ho] at h; simp at h
      | some s4 =>
        rw [ho] at h
        dsimp only at h
        refine ⟨s1, s3, s4, rfl, hk, ho, ?_⟩
        by_cases hr : routeAfterOrchestrator s4 = Node.human_approvalNode
        · left
          refine ⟨(route_iff s4).mp hr, ?_⟩
          simp only [hr, if_pos rfl] at h
          exact (Option.some_inj.mp h).symm
        · right
          refine ⟨fun hh => hr ((route_iff s4).mpr hh), ?_⟩
          rw [if_neg hr] at h
          exact (Option.some_inj.mp h).symm

theorem confidenceB_eval :
    round2 (SIMILARITY_WEIGHT * evidenceB.similarity_score
            + SUCCESS_WEIGHT * evidenceB.success_rate) = 86 / 100 := by
  rw [round2_eval 86 (by norm_num [SIMILARITY_WEIGHT, SUCCESS_WEIGHT, evidenceB])
    (by norm_num [SIMILARITY_WEIGHT, SUCCESS_WEIGHT, evidenceB])]
  norm_num

theorem orchestrator_stateB : orchestrator stateB = some stateB_out := by
  have hge : CONFIDENCE_THRESHOLD ≤
      round2 (SIMILARITY_WEIGHT * evidenceB.similarity_score
              + SUCCESS_WEIGHT * evidenceB.success_rate) := by
    rw [confidenceB_eval]
    norm_num [CONFIDENCE_THRESHOLD]
  rw [orchestrator_found_high stateB evidenceB rfl rfl hge, confidenceB_eval]
  rfl

/-- C1: For every state with `evidence_status == FOUND` the orchestrator sets
`confidence = round2(SIMILARITY_WEIGHT * similarity_score + SUCCESS_WEIGHT *
success_rate)` with the weights summing to 1, sets `requires_human =
(confidence < CONFIDENCE_THRESHOLD)`, and when `requires_human` is false sets
`final_decision = AUTO_RESOLUTION` with a message embedding the best
resolution verbatim; in particular similarity 0.9 and success rate 0.8 give
confidence 0.86 and AUTO_RESOLUTION with `requires_human = false`. -/
theorem found_confidence_policy (st : IncidentState) (ev : OracleEvidence)
    (hs : st.evidence_status = EvidenceStatus.FOUND)
    (he : st.oracle_evidence = some ev) :
    SIMILARITY_WEIGHT + SUCCESS_WEIGHT = 1 ∧
    (∃ st1, orchestrator st = some st1 ∧
      st1.confidence = some (round2 (SIMILARITY_WEIGHT * ev.similarity_score
                                     + SUCCESS_WEIGHT * ev.success_rate)) ∧
      st1.requires_human =
        some (decide (round2 (SIMILARITY_WEIGHT * ev.similarity_score
                              + SUCCESS_WEIGHT * ev.success_rate) < CONFIDENCE_THRESHOLD)) ∧
      (st1.requires_human = some false →
        st1.final_decision = some "AUTO_RESOLUTION" ∧
        st1.response_message =
          some ("We identified a known issue and applied a proven resolution: "
                ++ pyStr ev.common_resolution ++ "."))) ∧
    orchestrator stateB = some stateB_out := by
  refine ⟨by norm_num [SIMILARITY_WEIGHT, SUCCESS_WEIGHT], ?_, orchestrator_stateB⟩
  by_cases hlt : round2 (SIMILARITY_WEIGHT * ev.similarity_score
      + SUCCESS_WEIGHT * ev.success_rate) < CONFIDENCE_THRESHOLD
  · refine ⟨_, orchestrator_found_low st ev hs he hlt, rfl, ?_, ?_⟩
    · rw [decide_eq_true hlt]
    · intro hf
      simp at hf
  · have hge := not_lt.mp hlt
    refine ⟨_, orchestrator_found_high st ev hs he hge, rfl, ?_, ?_⟩
    · rw [decide_eq_false hlt]
    · intro _
      exact ⟨rfl, rfl⟩

/-- C1 witness: the policy applied to the concrete scenario B state. -/
theorem found_confidence_policy_witness :
    orchestrator stateB = some stateB_out ∧
    stateB_out.confidence = some (86 / 100) ∧
    stateB_out.requires_human = some false ∧
    stateB_out.final_decision = some "AUTO_RESOLUTION" :=
  ⟨(found_confidence_policy stateB evidenceB rfl rfl).2.2, rfl, rfl, rfl⟩

/-- C4: on `ERROR` the orchestrator sets confidence to the fixed floor 0.0,
`requires_human = true`, `SYSTEM_ESCALATION` and the fixed escalation
message; on `NOT_FOUND` it sets the configured no-evidence confidence,
`requires_human = true`, `REQUIRES_REVIEW` and the fixed review message. -/
theorem fallback_branches_policy (st : IncidentState) :
    ERROR_CONFIDENCE = 0 ∧
    (st.evidence_status = EvidenceStatus.ERROR →
      orchestrator st = some { st with
        confidence := some ERROR_CONFIDENCE
        requires_human := some true
        final_decision := some "SYSTEM_ESCALATION"
        response_message :=
          some "Your issue has been escalated for manual review due to system constraints." }) ∧
    (st.evidence_status = EvidenceStatus.NOT_FOUND →
      orchestrator st = some { st with
        confidence := some NO_EVIDENCE_CONFIDENCE
        requires_human := some true
        final_decision := some "REQUIRES_REVIEW"
        response_message :=
          some "Your issue requires additional review by our engineering team." }) :=
  ⟨rfl, orchestrator_error_branch st, orchestrator_notfound_branch st⟩

/-- C4 witness: both fallback branches at concrete states. -/
theorem fallback_branches_policy_witness :
    orchestrator stateErr = some { stateErr with
      confidence := some ERROR_CONFIDENCE
      requires_human := some true
      final_decision := some "SYSTEM_ESCALATION"
      response_message :=
        some "Your issue has been escalated for manual review due to system constraints." } ∧
    orchestrator stateNF = some { stateNF with
      confidence := some NO_EVIDENCE_CONFIDENCE
      requires_human := some true
      final_decision := some "REQUIRES_REVIEW"
      response_message :=
        some "Your issue requires additional review by our engineering team." } :=
  ⟨(fallback_branches_policy stateErr).2.1 rfl, (fallback_branches_policy stateNF).2.2 rfl⟩

/-- C10: the orchestrator writes only `confidence`, `requires_human`,
`final_decision` and `response_message`; all other fields are preserved in
every branch, and in the FOUND branch with confidence below the threshold
`final_decision` and `response_message` are also left unchanged. -/
theorem orchestrator_frame (st st1 : IncidentState) (h : orchestrator st = some st1) :
    st1.user_description = st.user_description ∧
    st1.incident_signature = st.incident_signature ∧
    st1.oracle_evidence = st.oracle_evidence ∧
    st1.evidence_status = st.evidence_status ∧
    st1.knowledge_signal = st.knowledge_signal ∧
    (st.evidence_status = EvidenceStatus.FOUND →
      ∀ c, st1.confidence = some c → c < CONFIDENCE_THRESHOLD →
        st1.final_decision = st.final_decision ∧
        st1.response_message = st.response_message) := by
  rcases orchestrator_inversion st st1 h with
    ⟨hs, h1⟩ | ⟨hs, h1⟩ | ⟨ev, hs, he, ⟨hlt, h1⟩ | ⟨hge, h1⟩⟩
  · subst h1
    refine ⟨rfl, rfl, rfl, rfl, rfl, ?_⟩
    intro hf
    rw [hs] at hf
    cases hf
  · subst h1
    refine ⟨rfl, rfl, rfl, rfl, rfl, ?_⟩
    intro hf
    rw [hs] at hf
    cases hf
  · subst h1
    refine ⟨rfl, rfl, rfl, rfl, rfl, ?_⟩
    intro _ c _ _
    exact ⟨rfl, rfl⟩
  · subst h1
    refine ⟨rfl, rfl, rfl, rfl, rfl, ?_⟩
    intro _ c hc hclt
    have : round2 (SIMILARITY_WEIGHT * ev.similarity_score
        + SUCCESS_WEIGHT * ev.success_rate) = c := Option.some_inj.mp hc
    rw [this] at hge
    exact absurd hclt (not_lt.mpr hge)

/-- C10 witness: the frame at the concrete scenario B state. -/
theorem orchestrator_frame_witness :
    stateB_out.user_description = stateB.user_description ∧
    stateB_out.oracle_evidence = stateB.oracle_evidence ∧
    stateB_out.evidence_status = stateB.evidence_status :=
  ⟨(orchestrator_frame stateB stateB_out orchestrator_stateB).1,
   (orchestrator_frame stateB stateB_out orchestrator_stateB).2.2.1,
   (orchestrator_frame stateB stateB_out orchestrator_stateB).2.2.2.1⟩

/-- C3: after the Decision Engine, `requires_human` is true on ERROR and
NOT_FOUND, equals `(confidence < CONFIDENCE_THRESHOLD)` on FOUND, and the
pipeline visits the Human Gate exactly when `requires_human` is true. -/
theorem requires_human_policy (st st1 : IncidentState) (h : orchestrator st = some st1) :
    ((st.evidence_status = EvidenceStatus.ERROR ∨
      st.evidence_status = EvidenceStatus.NOT_FOUND) → st1.requires_human = some true) ∧
    (st.evidence_status = EvidenceStatus.FOUND →
      ∃ c, st1.confidence = some c ∧
        st1.requires_human = some (decide (c < CONFIDENCE_THRESHOLD))) ∧
    (routeAfterOrchestrator st1 = Node.human_approvalNode ↔
      st1.requires_human = some true) ∧
    (∀ st0 cc parse kc db inp res, runPipeline st0 cc parse kc db inp = some res →
      (res.visitedGate = true ↔ res.finalState.requires_human = some true)) := by
  refine ⟨?_, ?_, route_iff st1, ?_⟩
  · intro hor
    rcases orchestrator_inversion st st1 h with
      ⟨hs, h1⟩ | ⟨hs, h1⟩ | ⟨ev, hs, he, ⟨hlt, h1⟩ | ⟨hge, h1⟩⟩
    · subst h1; rfl
    · subst h1; rfl
    · rcases hor with h2 | h2 <;> (rw [hs] at h2; cases h2)
    · rcases hor with h2 | h2 <;> (rw [hs] at h2; cases h2)
  · intro hf
    rcases orchestrator_inversion st st1 h with
      ⟨hs, h1⟩ | ⟨hs, h1⟩ | ⟨ev, hs, he, ⟨hlt, h1⟩ | ⟨hge, h1⟩⟩
    · rw [hs] at hf; cases hf
    · rw [hs] at hf; cases hf
    · subst h1
      exact ⟨_, rfl, by rw [decide_eq_true hlt]⟩
    · subst h1
      exact ⟨_, rfl, by rw [decide_eq_false (not_lt.mpr hge)]⟩
  · intro st0 cc parse kc db inp res hrun
    rcases runPipeline_inversion st0 cc parse kc db inp res hrun with
      ⟨s1, s3, s4, _, _, _, ⟨hreq, hres⟩ | ⟨hreq, hres⟩⟩
    · subst hres
      simp [human_approval_keeps_requires_human, hreq]
    · subst hres
      simp [hreq]

/-- C3 witness: the FOUND clause of the policy at the scenario B state. -/
theorem requires_human_policy_witness :
    ∃ c, stateB_out.confidence = some c ∧
      stateB_out.requires_human = some (decide (c < CONFIDENCE_THRESHOLD)) :=
  (requires_human_policy stateB stateB_out orchestrator_stateB).2.1 rfl

/-- C2 counterexample: in the concrete error-path run the Decision Engine
sets `final_decision = SYSTEM_ESCALATION`, but the Human Gate, which the
same run visits next, overwrites it with `HUMAN_REJECTED` — so
`final_decision` is not kept once set. -/
theorem final_decision_overwrite_counterexample :
    incident_understanding_agent pipeInit (Except.ok "not json") parseFail
      = Except.ok stage1Err ∧
    knowledge_agent (oracle_evidence_agent stage1Err (Except.error ())) (Except.ok "hint")
      = Except.ok stage3Err ∧
    orchestrator stage3Err = some stage4Err ∧
    stage4Err.final_decision = some "SYSTEM_ESCALATION" ∧
    human_approval stage4Err "no" = finalErrState ∧
    runPipeline pipeInit (Except.ok "not json") parseFail (Except.ok "hint")
        (Except.error ()) "no"
      = some { finalState := finalErrState, visitedGate := true } ∧
    finalErrState.final_decision ≠ some "SYSTEM_ESCALATION" :=
  ⟨rfl, rfl, rfl, rfl, rfl, rfl, by decide⟩

/-- C2 amended: a `final_decision` set by the Decision Engine survives to
the end of the flow only when the run does not visit the Human Gate, in
which case it is `AUTO_RESOLUTION`; whenever the gate is visited (in
particular after `SYSTEM_ESCALATION` or `REQUIRES_REVIEW`, which force
`requires_human = true`), the gate — the terminal stage — overwrites
`final_decision` with its own verdict. -/
theorem final_decision_after_gate (st0 : IncidentState) (cc : Except Unit String)
    (parse : String → Option Signature) (kc : Except Unit String)
    (db : Except Unit (Option OracleRow)) (inp : String) (res : PipelineResult)
    (h : runPipeline st0 cc parse kc db inp = some res) :
    (Node.human_approvalNode, Node.endNode) ∈ staticEdges ∧
    (res.visitedGate = false → res.finalState.final_decision = some "AUTO_RESOLUTION") ∧
    (res.visitedGate = true →
      res.finalState.final_decision = some "HUMAN_APPROVED" ∨
      res.finalState.final_decision = some "HUMAN_REJECTED") := by
  rcases runPipeline_inversion st0 cc parse kc db inp res h with
    ⟨s1, s3, s4, hi, hk, ho, ⟨hreq, hres⟩ | ⟨hreq, hres⟩⟩
  · subst hres
    refine ⟨by decide, ?_, ?_⟩
    · intro hv
      simp at hv
    · intro _
      exact human_approval_verdicts s4 inp
  · subst hres
    refine ⟨by decide, ?_, ?_⟩
    · intro _
      rcases orchestrator_inversion s3 s4 ho with
        ⟨hs, h1⟩ | ⟨hs, h1⟩ | ⟨ev, hs, he, ⟨hlt, h1⟩ | ⟨hge, h1⟩⟩
      · subst h1; exact absurd rfl hreq
      · subst h1; exact absurd rfl hreq
      · subst h1; exact absurd rfl hreq
      · subst h1; rfl
    · intro hv
      simp at hv

/-- C2 amended witness: the gate's overwrite in the error-path run. -/
theorem final_decision_after_gate_witness :
    finalErrState.final_decision = some "HUMAN_APPROVED" ∨
    finalErrState.final_decision = some "HUMAN_REJECTED" :=
  (final_decision_after_gate pipeInit (Except.ok "not json") parseFail (Except.ok "hint")
    (Except.error ()) "no" { finalState := finalErrState, visitedGate := true } rfl).2.2 rfl

/-- C7: for every outcome of the Evidence Retriever, `evidence_status ==
FOUND` iff the evidence record is non-null; any other status leaves the
evidence null. -/
theorem found_iff_evidence (st : IncidentState) (db : Except Unit (Option OracleRow)) :
    ((oracle_evidence_agent st db).evidence_status = EvidenceStatus.FOUND ↔
      ∃ ev, (oracle_evidence_agent st db).oracle_evidence = some ev) ∧
    ((oracle_evidence_agent st db).evidence_status ≠ EvidenceStatus.FOUND →
      (oracle_evidence_agent st db).oracle_evidence = none) := by
  have h := oracle_c7 st db
  rw [Option.isSome_iff_exists] at h
  refine ⟨h, ?_⟩
  intro hne
  cases ho : (oracle_evidence_agent st db).oracle_evidence with
  | none => rfl
  | some ev => exact absurd (h.mpr ⟨ev, ho⟩) hne

/-- C6 counterexample: a best distance exactly equal to
`MAX_VECTOR_DISTANCE` is NOT rejected — the code tests with a strict
`>`, so the retriever reports FOUND there, against the claim that a
distance ≥ the maximum yields NOT_FOUND. -/
theorem boundary_distance_counterexample :
    MAX_VECTOR_DISTANCE ≤ rowBoundary.best_distance ∧
    (oracle_evidence_agent pipeInit (Except.ok (some rowBoundary))).evidence_status
      = EvidenceStatus.FOUND ∧
    (oracle_evidence_agent pipeInit (Except.ok (some rowBoundary))).oracle_evidence
      ≠ none := by
  have hb : oracle_evidence_agent pipeInit (Except.ok (some rowBoundary)) =
      { pipeInit with
        oracle_evidence := some {
          incident_count := rowBoundary.total_matches
          success_rate := rowBoundary.success_ratio.getD 0
          common_resolution := rowBoundary.best_action
          similarity_score := round2 (max 0 (1 - rowBoundary.best_distance)) }
        evidence_status := EvidenceStatus.FOUND } :=
    oracle_found_branch pipeInit "checkout is down" rowBoundary rfl (by decide)
      (by decide) (by norm_num [MAX_VECTOR_DISTANCE, rowBoundary])
  refine ⟨by norm_num [MAX_VECTOR_DISTANCE, rowBoundary], ?_, ?_⟩
  · rw [hb]
  · rw [hb]
    simp

/-- C6 amended: whenever the retriever reports FOUND, the similarity score
is `round2 (max 0 (1 - best_distance))` (so distance 0 gives 1.0); a best
distance STRICTLY greater than `MAX_VECTOR_DISTANCE` yields NOT_FOUND with
no evidence, while a distance equal to the maximum is still accepted. -/
theorem similarity_score_policy (st : IncidentState) (d : String) (row : OracleRow)
    (hdesc : st.user_description = some d) (hne : d ≠ "")
    (hc : row.total_matches ≠ 0) :
    (row.best_distance ≤ MAX_VECTOR_DISTANCE →
      (oracle_evidence_agent st (Except.ok (some row))).evidence_status
        = EvidenceStatus.FOUND ∧
      ∃ ev, (oracle_evidence_agent st (Except.ok (some row))).oracle_evidence = some ev ∧
        ev.similarity_score = round2 (max 0 (1 - row.best_distance)) ∧
        (row.best_distance = 0 → ev.similarity_score = 1)) ∧
    (MAX_VECTOR_DISTANCE < row.best_distance →
      (oracle_evidence_agent st (Except.ok (some row))).evidence_status
        = EvidenceStatus.NOT_FOUND ∧
      (oracle_evidence_agent st (Except.ok (some row))).oracle_evidence = none) := by
  constructor
  · intro hle
    rw [oracle_found_branch st d row hdesc hne hc (not_lt.mpr hle)]
    refine ⟨rfl, _, rfl, rfl, ?_⟩
    intro h0
    rw [h0]
    rw [round2_eval 100 (by norm_num) (by norm_num)]
    norm_num
  · intro hgt
    rw [oracle_reject_branch st d row hdesc hne hc hgt]
    exact ⟨rfl, rfl⟩

/-- C6 amended witness: the zero-distance row gives FOUND with score 1. -/
theorem similarity_score_policy_witness :
    (oracle_evidence_agent pipeInit (Except.ok (some rowZero))).evidence_status
      = EvidenceStatus.FOUND ∧
    ∃ ev, (oracle_evidence_agent pipeInit (Except.ok (some rowZero))).oracle_evidence
        = some ev ∧
      ev.similarity_score = round2 (max 0 (1 - rowZero.best_distance)) ∧
      (rowZero.best_distance = 0 → ev.similarity_score = 1) :=
  (similarity_score_policy pipeInit "checkout is down" rowZero rfl (by decide)
    (by decide)).1 (by norm_num [MAX_VECTOR_DISTANCE, rowZero])

/-- C8: normalization lands in the closed type and area sets with a
non-empty context, and it is idempotent. -/
theorem normalization_closed_and_idempotent (p : Signature) :
    inIncidentTypes (normalizeSignature p).incident_type = true ∧
    inAffectedAreas (normalizeSignature p).affected_area = true ∧
    pyTruthyStr (normalizeSignature p).context = true ∧
    normalizeSignature (normalizeSignature p) = normalizeSignature p := by
  obtain ⟨t, a, c⟩ := p
  by_cases h1 : inIncidentTypes t = true <;>
    by_cases h2 : inAffectedAreas a = true <;>
      by_cases h3 : pyTruthyStr c = true <;>
        simp [normalizeSignature, h1, h2, h3] <;>
          simp_all [inIncidentTypes, inAffectedAreas, pyTruthyStr, INCIDENT_TYPES,
            AFFECTED_AREAS]

/-- C9: the reviewer input is stripped and lowercased and compared to the
literal "yes"; exactly that value approves, everything else rejects, and
the gate's only outgoing edge is END. -/
theorem human_gate_policy (st : IncidentState) (inp : String) :
    (pyLower (pyStrip inp) = "yes" →
      human_approval st inp = { st with
        final_decision := some "HUMAN_APPROVED"
        response_message :=
          some "Your issue has been reviewed and an appropriate action has been taken." }) ∧
    (pyLower (pyStrip inp) ≠ "yes" →
      human_approval st inp = { st with
        final_decision := some "HUMAN_REJECTED"
        response_message :=
          some "Your issue has been reviewed and escalated for further investigation." }) ∧
    staticEdges.filter (fun e => e.1 = Node.human_approvalNode)
      = [(Node.human_approvalNode, Node.endNode)] := by
  refine ⟨?_, ?_, by decide⟩
  · intro hyes
    unfold human_approval
    simp [hyes]
  · intro hno
    unfold human_approval
    simp [hno]

/-- C9 witness: a padded upper-case yes approves; the empty input and a
non-no input both reject. -/
theorem human_gate_policy_witness :
    human_approval stage4Err " YES " = { stage4Err with
      final_decision := some "HUMAN_APPROVED"
      response_message :=
        some "Your issue has been reviewed and an appropriate action has been taken." } ∧
    human_approval stage4Err "" = { stage4Err with
      final_decision := some "HUMAN_REJECTED"
      response_message :=
        some "Your issue has been reviewed and escalated for further investigation." } ∧
    human_approval stage4Err "abort" = { stage4Err with
      final_decision := some "HUMAN_REJECTED"
      response_message :=
        some "Your issue has been reviewed and escalated for further investigation." } :=
  ⟨(human_gate_policy stage4Err " YES ").1 (by decide),
   (human_gate_policy stage4Err "").2.1 (by decide),
   (human_gate_policy stage4Err "abort").2.1 (by decide)⟩

/-- C5 counterexample: an exception raised by the classification call
itself is not absorbed — `llm.invoke` stands outside the try block, so the
Classifier re-raises and the pipeline run aborts. -/
theorem classifier_exception_counterexample :
    incident_understanding_agent pipeInit (Except.error ()) parseFail = Except.error () ∧
    runPipeline pipeInit (Except.error ()) parseFail (Except.ok "hint") (Except.ok none) "no"
      = none :=
  ⟨rfl, rfl⟩

/-- C5 amended: failures of the similarity query / embedding generation are
absorbed by the Evidence Retriever as `evidence_status = ERROR`, and a
classification parse failure is absorbed as the fallback signature; but an
exception raised by the classification call itself propagates out of the
Classifier, aborting the pipeline. -/
theorem external_failure_boundaries (st : IncidentState) (d : String)
    (hdesc : st.user_description = some d) (hne : d ≠ "") :
    oracle_evidence_agent st (Except.error ()) = { st with
      oracle_evidence := none
      evidence_status := EvidenceStatus.ERROR } ∧
    (∀ text parse, parse (pyStrip text) = none →
      incident_understanding_agent st (Except.ok text) parse =
        Except.ok { st with incident_signature := some fallbackSignature }) ∧
    (∀ parse, incident_understanding_agent st (Except.error ()) parse
      = Except.error ()) := by
  refine ⟨oracle_error_branch st d hdesc hne, ?_, fun _ => rfl⟩
  intro text parse hp
  unfold incident_understanding_agent
  dsimp only
  rw [hp]
  rfl

/-- C5 amended witness: the three boundary behaviours at concrete inputs. -/
theorem external_failure_boundaries_witness :
    oracle_evidence_agent pipeInit (Except.error ()) = { pipeInit with
      oracle_evidence := none
      evidence_status := EvidenceStatus.ERROR } ∧
    incident_understanding_agent pipeInit (Except.ok "not json") parseFail
      = Except.ok { pipeInit with incident_signature := some fallbackSignature } ∧
    incident_understanding_agent pipeInit (Except.error ()) parseFail
      = Except.error () :=
  ⟨(external_failure_boundaries pipeInit "checkout is down" rfl (by decide)).1,
   (external_failure_boundaries pipeInit "checkout is down" rfl (by decide)).2.1
     "not json" parseFail rfl,
   (external_failure_boundaries pipeInit "checkout is down" rfl (by decide)).2.2 parseFail⟩

/-- C7 witness: the ERROR outcome of the retriever leaves the evidence
null. -/
theorem found_iff_evidence_witness :
    (oracle_evidence_agent pipeInit (Except.error ())).oracle_evidence = none :=
  (found_iff_evidence pipeInit (Except.error ())).2 (by decide)

end AgenticObs
